import Mathlib

/-!
Verification of the db2graphql facade (`src/db2g.js`) against its design
specification. The facade composes a schema Compiler and a generic Resolver
engine; the facade's own code is embedded faithfully below, while the
Compiler/Resolver internals (whose sources are external to this tree) are
modelled from the specification where a claim needs them.

JS conventions captured by the embedding:
  * a thrown `Error` is modelled by returning the pre-throw state together
    with `some message` (mutations that the source performs after the throw
    point are simply not reached);
  * JS string falsiness (`!s` is true for `null` and `""`) is modelled on
    `Option String` by `(·.getD "") = ""`;
  * callback functions are modelled by opaque identifiers (`Callback`),
    since the facade only stores and forwards them.
-/

namespace DB2G

/-- Opaque identifier standing for a JS callback function value. -/
abbrev Callback := String

/-- Whitespace as trimmed by JS `String.prototype.trim` (the characters that
occur in practice). -/
def isWs (c : Char) : Bool :=
  c = ' ' ∨ c = '\t' ∨ c = '\n' ∨ c = '\r'

/-- Drop whitespace from both ends of a character list (JS `trim`). -/
def trimChars (l : List Char) : List Char :=
  ((l.dropWhile isWs).reverse.dropWhile isWs).reverse

/-- Split a character list at every occurrence of `sep`
(JS `String.prototype.split` with a one-character separator). -/
def splitOnChar (sep : Char) : List Char → List (List Char)
  | [] => [[]]
  | c :: cs =>
    match splitOnChar sep cs with
    | [] => [[c]]
    | g :: gs => if c = sep then [] :: g :: gs else (c :: g) :: gs

/-- `path.trim().split('.').filter(i => !!i)` from `addField` / `addInput`
(db2g.js lines 69 and 119): trim, split on every dot, drop empty segments. -/
def pathSegments (path : String) : List String :=
  ((splitOnChar '.' (trimChars path.data)).map (fun l => String.mk l)).filter
    (fun s => s ≠ "")

/-! ## Schema Descriptor (spec §3) -/

/-- A foreign key entry of the Schema Descriptor. -/
structure ForeignKey where
  column : String
  referencedTable : String
  referencedColumn : String
deriving Repr, DecidableEq

/-- A column entry of the Schema Descriptor. -/
structure Column where
  name : String
  nativeType : String
  nullable : Bool
  isPrimaryKey : Bool
deriving Repr, DecidableEq

/-- A table descriptor: ordered columns plus foreign keys. -/
structure TableDef where
  columns : List Column
  foreignKeys : List ForeignKey
deriving Repr, DecidableEq

/-- The Schema Descriptor: table name to table descriptor. -/
abbrev Descriptor := List (String × TableDef)

/-! ## Compiler model

The compiler source is not part of this tree; its registry and the methods
the facade calls (`addType`, `addInput`, `getSDL`, `buildSchema`) are
modelled from spec §4.2. -/

/-- A field entry of the Compiled Type Registry: return type and argument
schema. -/
structure FieldDef where
  returns : String
  params : List (String × String)
deriving Repr, DecidableEq

/-- Insert-or-overwrite for an association list keyed by strings. -/
def upsert {α : Type} (l : List (String × α)) (k : String) (v : α) :
    List (String × α) :=
  match l with
  | [] => [(k, v)]
  | (k', v') :: rest =>
    if k' = k then (k, v) :: rest else (k', v') :: upsert rest k v

/-- Modelled from the spec: the Compiler's state. `types`/`inputs` hold the
manually registered entries (spec §3 "Compiled Type Registry ... may be
extended additively by external callers via addType/addInput"); `dbSchema`
and `dbDriver` are set by the facade's `connect`; `dbTypes` holds the
database-backed part of the registry, produced by `buildSchema`. -/
structure Compiler where
  types : List (String × List (String × FieldDef))
  inputs : List (String × List (String × String))
  dbSchema : Option Descriptor
  dbDriver : Option String
  dbTypes : List (String × List (String × FieldDef))
deriving Repr, DecidableEq

/-- The compiler in its initial state (`new Compiler()`). -/
def Compiler.init : Compiler := ⟨[], [], none, none, []⟩

/-- Modelled from the spec (§4.2): `addType(typeName, fieldName, returnType,
argsSchema)` idempotently ensures `typeName` exists and inserts/overwrites the
field entry in the manual registry. -/
def Compiler.addType (c : Compiler) (t f returns : String)
    (params : List (String × String)) : Compiler :=
  { c with types :=
      upsert c.types t (upsert ((c.types.lookup t).getD []) f ⟨returns, params⟩) }

/-- Modelled from the spec (§4.2): `addInput(typeName, fieldName, subType)`
targets the input-type namespace. -/
def Compiler.addInput (c : Compiler) (t f subType : String) : Compiler :=
  { c with inputs :=
      upsert c.inputs t (upsert ((c.inputs.lookup t).getD []) f subType) }

/-- Render one field entry of a type block. -/
def renderField (f : String × FieldDef) : String :=
  "  " ++ f.1 ++ ": " ++ f.2.returns ++ "\n"

/-- Render one object-type block of the registry. -/
def renderType (t : String × List (String × FieldDef)) : String :=
  "type " ++ t.1 ++ " \x7b\n" ++ String.join (t.2.map renderField) ++ "\x7d\n"

/-- Render one input-type block of the registry. -/
def renderInput (t : String × List (String × String)) : String :=
  "input " ++ t.1 ++ " \x7b\n"
    ++ String.join (t.2.map (fun f => "  " ++ f.1 ++ ": " ++ f.2 ++ "\n"))
    ++ "\x7d\n"

/-- The part of the SDL coming from manually added types and inputs. -/
def Compiler.renderManual (c : Compiler) : String :=
  String.join (c.types.map renderType) ++ String.join (c.inputs.map renderInput)

/-- The part of the SDL coming from database-backed types. -/
def Compiler.renderDb (c : Compiler) : String :=
  String.join (c.dbTypes.map renderType)

/-- Modelled from the spec (§4.2): `getSDL(refresh, hasConnection)` renders
the Compiled Type Registry to schema text; if `hasConnection` is false, only
types added manually via `addType`/`addInput` are rendered and no
database-backed types are emitted. -/
def Compiler.getSDL (c : Compiler) (_refresh hasConnection : Bool) : String :=
  c.renderManual ++ (if hasConnection then c.renderDb else "")

/-- Modelled from the spec (§4.2): nearest-scalar mapping of a native column
type (integers → Int, textual → String, boolean → Boolean, floating/decimal
→ Float, unrecognized → String). -/
def scalarOf (nativeType : String) : String :=
  if nativeType = "integer" ∨ nativeType = "bigint" ∨ nativeType = "smallint"
    then "Int"
  else if nativeType = "boolean" then "Boolean"
  else if nativeType = "real" ∨ nativeType = "numeric" ∨ nativeType = "float"
    then "Float"
  else "String"

/-! ## Relation naming (spec §4.3), modelled from the spec -/

/-- Modelled from the spec (§4.3): strip the foreign-key suffix convention
`_id` from a column name (only when something non-empty remains). -/
def stripIdSuffix (c : String) : String :=
  if c.endsWith "_id" ∧ 3 < c.length then c.dropRight 3 else c

/-- Modelled from the spec (§4.3): a short deterministic hash of a string,
a pure function of its characters. -/
def detHash (s : String) : Nat :=
  s.foldl (fun h ch => (h * 31 + ch.toNat) % 100000) 7

/-- Modelled from the spec (§4.3): candidate relation field name for a
foreign key column `c` referencing table `r` — `c` stripped of the `_id`
suffix, joined with `r` (collapsed when they coincide, as in
`categories_id → categories`). -/
def candidateName (c r : String) : String :=
  let b := stripIdSuffix c
  if b = r then r else b ++ "_" ++ r

/-- Modelled from the spec (§4.3): assign a relation field name given the
per-type set `used` of already-assigned relation field names. On collision,
append the original column name; if that still collides, append the
deterministic hash of the full `(T, C, R)` tuple. -/
def assignRelationName (used : List String) (t c r : String) : String :=
  let cand := candidateName c r
  if cand ∉ used then cand
  else
    let cand2 := cand ++ "_" ++ c
    if cand2 ∉ used then cand2
    else cand2 ++ "_" ++ toString (detHash (t ++ "." ++ c ++ "." ++ r))

/-- Modelled from the spec (§4.3): name every foreign key of table `t`, in
order, threading the per-type set of already-assigned relation field names. -/
def relationNames (t : String) (fks : List ForeignKey) : List String :=
  (fks.foldl
    (fun acc fk =>
      let n := assignRelationName acc.2 t fk.column fk.referencedTable
      (acc.1 ++ [n], acc.2 ++ [n]))
    (([], []) : List String × List String)).1

/-- Modelled from the spec (§4.2): `buildSchema` derives the database-backed
part of the registry from the Schema Descriptor: per table, an object type
with one field per column (nearest scalar) plus one relation field per
foreign key named via §4.3. -/
def Compiler.buildSchema (c : Compiler) : Compiler :=
  match c.dbSchema with
  | none => c
  | some d =>
    { c with dbTypes :=
        d.map (fun tbl =>
          (tbl.1,
            tbl.2.columns.map (fun col => (col.name, FieldDef.mk (scalarOf col.nativeType) []))
            ++ ((relationNames tbl.1 tbl.2.foreignKeys).zip
                  (tbl.2.foreignKeys.map (fun fk => FieldDef.mk fk.referencedTable []))).map
                (fun p => (p.1, p.2)))) }

/-! ## Resolver model -/

/-- The process-wide before-hook pair (spec §3). -/
structure BeforeHook where
  validator : Option Callback
  rejected : Option Callback
deriving Repr, DecidableEq

/-- Modelled from the spec: the Resolver engine's state — the before-hook
pair, the override registry keyed by `(type, field)`, and the driver handle
set at `connect`. -/
structure Resolver where
  beforeHook : BeforeHook
  overrides : List ((String × String) × Callback)
  dbDriver : Option String
deriving Repr, DecidableEq

/-- The resolver in its initial state (`new Resolver()`). -/
def Resolver.init : Resolver := ⟨⟨none, none⟩, [], none⟩

/-- Modelled from the spec (§4.5): `add`/`on` replaces the resolver map entry
for `(type, field)`. -/
def Resolver.add (r : Resolver) (t f : String) (cb : Callback) : Resolver :=
  { r with overrides :=
      if (r.overrides.lookup (t, f)).isSome
      then r.overrides.map (fun e => if e.1 = (t, f) then ((t, f), cb) else e)
      else r.overrides ++ [((t, f), cb)] }

/-- The resolver map handed to the execution runtime. -/
structure ResolverMap where
  hasDbResolvers : Bool
  entries : List ((String × String) × Callback)
deriving Repr, DecidableEq

/-- Modelled from the spec (§4.4, §4.2): `getResolvers(hasConnection)`
assembles the resolver map; database-backed resolvers are included exactly
when `hasConnection` is true. -/
def Resolver.getResolvers (r : Resolver) (hasConnection : Bool) : ResolverMap :=
  ⟨hasConnection, r.overrides⟩

/-! ## Knex connection model -/

/-- The slice of a knex configuration that `connect` reads:
`connection().client.config.client` (the driver key),
`config.connection.database` and `config.exclude`. -/
structure KnexConfig where
  client : String
  database : Option String
  exclude : List String
deriving Repr, DecidableEq

/-- A knex connection handle: its configuration plus the Schema Descriptor
that the driver's introspection would return (the adapters are external
collaborators, spec §4.1). -/
structure Conn where
  config : KnexConfig
  introspected : Descriptor
deriving Repr, DecidableEq

/-! ## Facade state (db2g.js) -/

/-- The DB2Graphql facade state (db2g.js constructor, lines 32-48). -/
structure Facade where
  connection : Option Conn
  dbSchema : Option Descriptor
  gqlSchema : Option String
  compiler : Compiler
  resolver : Resolver
  dbDriver : Option String
deriving Repr, DecidableEq

/-- `add(type, field, returns, resolver, params)` (db2g.js lines 96-100):
registers the field with the compiler and the resolver, returns `this`. -/
def Facade.add (f : Facade) (t fld returns : String) (cb : Callback)
    (params : List (String × String)) : Facade :=
  { f with compiler := f.compiler.addType t fld returns params,
           resolver := f.resolver.add t fld cb }

/-- The constructor `new DB2Graphql(name, db)` (db2g.js lines 32-48): fresh
compiler and resolver; when `name` is truthy, registers the initial
`Query.getAPIName` resolver. -/
def DB2Graphql.new (name : String) (db : Option Conn) : Facade :=
  let f : Facade :=
    { connection := db, dbSchema := none, gqlSchema := none,
      compiler := Compiler.init, resolver := Resolver.init, dbDriver := none }
  if name ≠ "" then f.add "Query" "getAPIName" "String" "getAPIName" [] else f

/-- `addField(path, returns, resolver, params)` (db2g.js lines 68-75): split
the path; fewer than two non-empty segments throws before anything is
mutated; otherwise pop the field, then the type, and delegate to `add`. The
`Option String` component is the thrown error message, `none` on success. -/
def Facade.addField (f : Facade) (path returns : String) (cb : Callback)
    (params : List (String × String)) : Facade × Option String :=
  let segments := pathSegments path
  if segments.length < 2 then
    (f, some "addField path must be in format Type.field")
  else
    let fld := segments.reverse.headD ""
    let t := segments.reverse.tail.headD ""
    (f.add t fld returns cb params, none)

/-- `addInput(path, subType)` (db2g.js lines 118-125): same path handling as
`addField`, then registers the input field with the compiler only. -/
def Facade.addInput (f : Facade) (path subType : String) :
    Facade × Option String :=
  let segments := pathSegments path
  if segments.length < 2 then
    (f, some "addInput path must be in format Input.field")
  else
    let fld := segments.reverse.headD ""
    let t := segments.reverse.tail.headD ""
    ({ f with compiler := f.compiler.addInput t fld subType }, none)

/-- `onBefore(validator, rejected)` (db2g.js lines 147-150): always overwrite
the validator slot; overwrite the rejected slot only when `rejected` is
truthy (`if (rejected)`). -/
def Facade.onBefore (f : Facade) (validator : Callback)
    (rejected : Option Callback) : Facade :=
  { f with resolver :=
      { f.resolver with beforeHook :=
          { validator := some validator,
            rejected := match rejected with
                        | some r => some r
                        | none => f.resolver.beforeHook.rejected } } }

/-- The driver key table of the constructor: keys `pg` and `mysql`
(db2g.js lines 33-36). -/
def driverKeys : List String := ["pg", "mysql"]

/-- `connect(namespace)` (db2g.js lines 160-178): throws when the connection
is null; throws when the driver key is not in the driver table; otherwise
selects the driver, runs introspection, stores the Schema Descriptor into
the facade, compiler and resolver, and builds the schema. Both throws happen
before any mutation, so the pre-throw state is returned unchanged. -/
def Facade.connect (f : Facade) (ns : String) : Facade × Option String :=
  match f.connection with
  | none => (f, some "Invalid Knex instance")
  | some conn =>
    if conn.config.client ∉ driverKeys then
      (f, some "Database driver not available")
    else
      let _namespace :=
        if ns ≠ "" then ns else (conn.config.database.getD "public")
      let schema := conn.introspected
      let compiler1 :=
        { f.compiler with dbSchema := some schema,
                          dbDriver := some conn.config.client }
      ({ f with dbDriver := some conn.config.client,
                dbSchema := some schema,
                compiler := compiler1.buildSchema,
                resolver := { f.resolver with dbDriver := some conn.config.client } },
       none)

/-- `getResolvers()` (db2g.js lines 202-204): forwards the connection's
presence (`!!this.connection`) as the `hasConnection` flag. -/
def Facade.getResolvers (f : Facade) : ResolverMap :=
  f.resolver.getResolvers f.connection.isSome

/-- `getSchema(refresh)` (db2g.js lines 216-221): re-render exactly when the
cached `gqlSchema` is JS-falsy (null or `""`) or `refresh` is set, passing
`!!this.connection` as `hasConnection`. The middle component records whether
`compiler.getSDL` was invoked (a re-rendering happened). -/
def Facade.getSchema (f : Facade) (refresh : Bool) :
    String × Bool × Facade :=
  if f.gqlSchema.getD "" = "" ∨ refresh then
    let s := f.compiler.getSDL refresh f.connection.isSome
    (s, true, { f with gqlSchema := some s })
  else
    (f.gqlSchema.getD "", false, f)

/-! ## Schema-builder resolvers (db2g.js `withBuilder`, lines 232-322)

Each resolver wraps the knex DDL call in try/catch; the outcome of the
underlying database operation is passed in as an `Except String Unit`
(`Except.error` standing for a rejected promise from the driver). The
result's first component is what the async resolver produces — always an
`Except.ok` boolean, never a propagated error — and the second component
records whether the database operation was invoked at all. -/

/-- The `addSchemaColumn` resolver (db2g.js lines 243-258): returns `false`
without touching the database when the requested column type is not among
the driver's available types; otherwise `true` on success and `false` when
the driver call throws. -/
def addSchemaColumnResolver (types : List String) (argType : String)
    (dbResult : Except String Unit) : Except String Bool × Bool :=
  if argType ∉ types then (Except.ok false, false)
  else
    match dbResult with
    | Except.ok _ => (Except.ok true, true)
    | Except.error _ => (Except.ok false, true)

/-- The `dropSchemaColumn` resolver (db2g.js lines 268-278): `true` on
success, `false` when the driver call throws. -/
def dropSchemaColumnResolver (dbResult : Except String Unit) :
    Except String Bool × Bool :=
  match dbResult with
  | Except.ok _ => (Except.ok true, true)
  | Except.error _ => (Except.ok false, true)

/-- The `addSchemaTable` resolver (db2g.js lines 286-299): same type check
as `addSchemaColumn`, then `true` on success, `false` on a thrown error. -/
def addSchemaTableResolver (types : List String) (argType : String)
    (dbResult : Except String Unit) : Except String Bool × Bool :=
  if argType ∉ types then (Except.ok false, false)
  else
    match dbResult with
    | Except.ok _ => (Except.ok true, true)
    | Except.error _ => (Except.ok false, true)

/-- The `dropSchemaTable` resolver (db2g.js lines 309-317): `true` on
success, `false` when the driver call throws. -/
def dropSchemaTableResolver (dbResult : Except String Unit) :
    Except String Bool × Bool :=
  match dbResult with
  | Except.ok _ => (Except.ok true, true)
  | Except.error _ => (Except.ok false, true)

/-- Argument schema of `addSchemaColumn` (db2g.js lines 259-264). -/
def queryAlterColumnParams : List (String × String) :=
  [("tablename", "String!"), ("columnname", "String!"), ("type", "String!"),
   ("foreign", "String")]

/-- Argument schema of `dropSchemaColumn` (db2g.js lines 279-282). -/
def queryDropColumnParams : List (String × String) :=
  [("tablename", "String!"), ("columnname", "String!")]

/-- Argument schema of `addSchemaTable` (db2g.js lines 300-305). -/
def queryAddTableParams : List (String × String) :=
  [("tablename", "String!"), ("primary", "String!"), ("type", "String!"),
   ("increments", "Boolean")]

/-- `withBuilder()` (db2g.js lines 232-322): registers the five builder
fields on `Query`, each resolver identified by its name, and returns `this`. -/
def Facade.withBuilder (f : Facade) : Facade :=
  ((((f.add "Query" "getSchema" "String" "getSchemaResolver" []).add
      "Query" "addSchemaColumn" "Boolean" "addSchemaColumnResolver"
      queryAlterColumnParams).add
      "Query" "dropSchemaColumn" "Boolean" "dropSchemaColumnResolver"
      queryDropColumnParams).add
      "Query" "addSchemaTable" "Boolean" "addSchemaTableResolver"
      queryAddTableParams).add
      "Query" "dropSchemaTable" "Boolean" "dropSchemaTableResolver"
      [("tablename", "String!")]

/-- A connection handle whose driver key (`sqlite3`) is outside the driver
table, exercising the invalid-driver path of `connect`. -/
def sqliteConn : Conn := ⟨⟨"sqlite3", none, []⟩, []⟩

/-- A facade state holding a non-empty cached SDL text. -/
def cachedFacade : Facade :=
  { DB2Graphql.new "" none with gqlSchema := some "cached" }

/-! ## Helper lemmas -/

theorem underscore_append_ne_empty (a b : String) : a ++ "_" ++ b ≠ "" := by
  intro h
  have hl := congrArg String.length h
  rw [String.length_append, String.length_append] at hl
  have h1 : "_".length = 1 := rfl
  have h0 : "".length = 0 := rfl
  omega

theorem underscore_append_ne_self (a b : String) : a ++ "_" ++ b ≠ a := by
  intro h
  have hl := congrArg String.length h
  rw [String.length_append, String.length_append] at hl
  have h1 : "_".length = 1 := rfl
  omega

theorem candidateName_ne_empty (c r : String) (hr : r ≠ "") :
    candidateName c r ≠ "" := by
  simp only [candidateName]
  split
  · exact hr
  · intro h
    have hl := congrArg String.length h
    rw [String.length_append, String.length_append] at hl
    have h1 : "_".length = 1 := rfl
    have h0 : "".length = 0 := rfl
    omega

theorem assignRelationName_ne_empty (used : List String) (t c r : String)
    (hr : r ≠ "") : assignRelationName used t c r ≠ "" := by
  simp only [assignRelationName]
  split
  · exact candidateName_ne_empty c r hr
  · split
    · exact underscore_append_ne_empty _ c
    · exact underscore_append_ne_empty _ _

theorem assignRelationName_single_ne (n1 t c r : String) :
    assignRelationName [n1] t c r ≠ n1 := by
  simp only [assignRelationName]
  split
  · rename_i h
    simpa using h
  · split
    · rename_i h
      simpa using h
    · rename_i h hmem
      simp at hmem
      rw [hmem]
      exact underscore_append_ne_self n1 _

theorem relationNames_pair (t c1 c2 r rc1 rc2 : String) :
    relationNames t [⟨c1, r, rc1⟩, ⟨c2, r, rc2⟩]
      = [assignRelationName [] t c1 r,
         assignRelationName [assignRelationName [] t c1 r] t c2 r] := rfl

theorem new_db_fields (name : String) (db : Option Conn) :
    (DB2Graphql.new name db).connection = db
    ∧ (DB2Graphql.new name db).gqlSchema = none := by
  unfold DB2Graphql.new Facade.add
  split <;> simp

/-! ## Claims -/

/-- Claim C1: for a table with two foreign keys referencing the same table
(including a self-reference, `r = t`), the relation naming algorithm yields
exactly two distinct, non-empty relation field names, and the database-backed
type registry derived from a Schema Descriptor depends only on that
descriptor, so recompiling the identical descriptor — in particular in a
fresh compiler of a new process — yields identical names. -/
theorem c1_relation_naming_collision_resolved (t c1 c2 r rc1 rc2 : String)
    (hr : r ≠ "") :
    (relationNames t [⟨c1, r, rc1⟩, ⟨c2, r, rc2⟩]).length = 2
    ∧ (relationNames t [⟨c1, r, rc1⟩, ⟨c2, r, rc2⟩]).getD 0 ""
        ≠ (relationNames t [⟨c1, r, rc1⟩, ⟨c2, r, rc2⟩]).getD 1 ""
    ∧ (relationNames t [⟨c1, r, rc1⟩, ⟨c2, r, rc2⟩]).getD 0 "" ≠ ""
    ∧ (relationNames t [⟨c1, r, rc1⟩, ⟨c2, r, rc2⟩]).getD 1 "" ≠ ""
    ∧ (∀ (cA cB : Compiler) (d : Descriptor),
        cA.dbSchema = some d → cB.dbSchema = some d →
        cA.buildSchema.dbTypes = cB.buildSchema.dbTypes) := by
  rw [relationNames_pair]
  refine ⟨rfl, ?_, ?_, ?_, ?_⟩
  · simp only [List.getD]
    intro h
    exact assignRelationName_single_ne _ t c2 r (by simpa using h.symm)
  · simpa using assignRelationName_ne_empty [] t c1 r hr
  · simpa using assignRelationName_ne_empty _ t c2 r hr
  · intro cA cB d hA hB
    simp [Compiler.buildSchema, hA, hB]

/-- Witness for C1 at the spec's own collision scenario: `comments` with
`author_id` and `approver_id` both referencing `users`. -/
theorem c1_relation_naming_collision_resolved_witness :
    ("users" : String) ≠ ""
    ∧ (relationNames "comments"
        [⟨"author_id", "users", "id"⟩, ⟨"approver_id", "users", "id"⟩]).getD 0 ""
      ≠ (relationNames "comments"
        [⟨"author_id", "users", "id"⟩, ⟨"approver_id", "users", "id"⟩]).getD 1 "" :=
  ⟨by decide,
   (c1_relation_naming_collision_resolved "comments" "author_id" "approver_id"
     "users" "id" "id" (by decide)).2.1⟩

/-- Claim C2: when the dot-split of `path` has fewer than two non-empty
segments, `addField` and `addInput` throw immediately, returning the facade
state unchanged (no registry was mutated) together with the error message,
which is handed straight to the caller. -/
theorem c2_short_path_throws_before_mutation (f : Facade)
    (path returns subType : String) (cb : Callback)
    (params : List (String × String))
    (h : (pathSegments path).length < 2) :
    f.addField path returns cb params
      = (f, some "addField path must be in format Type.field")
    ∧ f.addInput path subType
      = (f, some "addInput path must be in format Input.field") := by
  constructor
  · simp [Facade.addField, h]
  · simp [Facade.addInput, h]

/-- Witness for C2: the one-segment path `Users`. -/
theorem c2_short_path_throws_before_mutation_witness :
    (pathSegments "Users").length < 2
    ∧ (DB2Graphql.new "" none).addField "Users" "String" "cb" []
      = (DB2Graphql.new "" none,
         some "addField path must be in format Type.field") :=
  ⟨by decide,
   (c2_short_path_throws_before_mutation (DB2Graphql.new "" none) "Users"
     "String" "Int" "cb" [] (by decide)).1⟩

/-- Claim C3: `connect` on a facade whose connection is null, or whose
connection reports a driver key outside the driver table, fails with an
error before any mutation: the returned facade is the original one, so
`dbSchema` and `dbDriver` are unchanged and no introspection was run. -/
theorem c3_connect_invalid_configuration_fails_fast (f : Facade) (ns : String) :
    (f.connection = none →
      f.connect ns = (f, some "Invalid Knex instance"))
    ∧ (∀ conn, f.connection = some conn → conn.config.client ∉ driverKeys →
        f.connect ns = (f, some "Database driver not available")) := by
  constructor
  · intro h; simp [Facade.connect, h]
  · intro conn hc hk; simp [Facade.connect, hc, hk]

/-- Witness for C3: a facade with no connection and a facade with an
`sqlite3` driver key. -/
theorem c3_connect_invalid_configuration_fails_fast_witness :
    (DB2Graphql.new "" none).connection = none
    ∧ (DB2Graphql.new "" none).connect ""
        = (DB2Graphql.new "" none, some "Invalid Knex instance")
    ∧ sqliteConn.config.client ∉ driverKeys
    ∧ (DB2Graphql.new "" (some sqliteConn)).connect ""
        = (DB2Graphql.new "" (some sqliteConn),
           some "Database driver not available") :=
  ⟨rfl,
   (c3_connect_invalid_configuration_fails_fast (DB2Graphql.new "" none) "").1
     rfl,
   by decide,
   (c3_connect_invalid_configuration_fails_fast
     (DB2Graphql.new "" (some sqliteConn)) "").2 sqliteConn rfl (by decide)⟩

/-- Claim C4 counterexample: the claim asserts that after one call to
`getSchema()` every subsequent call with `refresh = false` returns the cached
text without re-rendering. On a facade with no connection and no manually
added types, the first call renders the empty string; because the cache
guard is JS truthiness (`!this.gqlSchema`), the second call with
`refresh = false` invokes the compiler's rendering again (the middle
component `true` records the re-rendering), refuting the claim. -/
theorem c4_empty_render_defeats_cache_counterexample :
    (((DB2Graphql.new "" none).getSchema false).2.2.getSchema false).2.1
      = true := by decide

/-- Claim C4 (amended): once `getSchema` has cached a non-empty rendered
text, every call with `refresh = false` returns exactly that text with no
re-rendering and no state change; passing `refresh = true` re-invokes the
compiler's `getSDL`. -/
theorem c4_cached_schema_returned_without_rerender (f : Facade) (s : String)
    (h1 : f.gqlSchema = some s) (h2 : s ≠ "") :
    f.getSchema false = (s, false, f)
    ∧ (f.getSchema true).2.1 = true
    ∧ (f.getSchema true).1 = f.compiler.getSDL true f.connection.isSome := by
  refine ⟨?_, by simp [Facade.getSchema], by simp [Facade.getSchema]⟩
  simp [Facade.getSchema, h1, h2]

/-- Witness for the amended C4: a facade caching the non-empty text
`cached`. -/
theorem c4_cached_schema_returned_without_rerender_witness :
    cachedFacade.getSchema false = ("cached", false, cachedFacade)
    ∧ (cachedFacade.getSchema true).2.1 = true :=
  ⟨(c4_cached_schema_returned_without_rerender cachedFacade "cached" rfl
      (by decide)).1,
   (c4_cached_schema_returned_without_rerender cachedFacade "cached" rfl
      (by decide)).2.1⟩

/-- Claim C5: a facade constructed without a database connection renders,
for any constructor name and any `refresh` flag, exactly the manually
registered part of the registry — `getSDL` is called with
`hasConnection = false`, so no database-backed types are emitted — and
`getResolvers` forwards the same false flag, so the resolver map carries no
database-backed resolvers. -/
theorem c5_no_connection_renders_manual_types_only (name : String)
    (refresh : Bool) :
    ((DB2Graphql.new name none).getSchema refresh).1
      = (DB2Graphql.new name none).compiler.renderManual
    ∧ ((DB2Graphql.new name none).getSchema refresh).1
      = (DB2Graphql.new name none).compiler.getSDL refresh false
    ∧ (DB2Graphql.new name none).getResolvers
      = (DB2Graphql.new name none).resolver.getResolvers false
    ∧ (DB2Graphql.new name none).getResolvers.hasDbResolvers = false := by
  obtain ⟨hc, hg⟩ := new_db_fields name none
  refine ⟨?_, ?_, ?_, ?_⟩
  · simp [Facade.getSchema, hg, hc, Compiler.getSDL]
  · simp [Facade.getSchema, hg, hc]
  · simp [Facade.getResolvers, hc]
  · simp [Facade.getResolvers, hc, Resolver.getResolvers]

/-- Claim C6: the before-hook is a single pair on the resolver engine,
written only by `onBefore`, and the last writer wins — after
`onBefore(v1, r1)` then `onBefore(v2, r2)` (with `r2` provided) the hook
holds exactly `v2` and `r2`; indeed the final `onBefore` alone determines
the hook from any intermediate facade state `g`. -/
theorem c6_before_hook_last_writer_wins (f g : Facade) (v1 v2 r1 r2 : Callback) :
    ((f.onBefore v1 (some r1)).onBefore v2 (some r2)).resolver.beforeHook
      = ⟨some v2, some r2⟩
    ∧ (g.onBefore v2 (some r2)).resolver.beforeHook = ⟨some v2, some r2⟩ :=
  ⟨rfl, rfl⟩

/-- Claim C7: each schema-builder resolver registered by `withBuilder`
returns `true` when the driver operation succeeds and converts a driver
error into the benign value `false` — its outcome is always `Except.ok`,
never a propagated fault — and `addSchemaColumn`/`addSchemaTable` return
`false` without invoking the driver when the requested column type is not
among the driver's available types; `withBuilder` registers all four under
`Query`. -/
theorem c7_builder_resolvers_convert_errors (types : List String)
    (argType msg : String) (db : Except String Unit) :
    (argType ∉ types →
      addSchemaColumnResolver types argType db = (Except.ok false, false)
      ∧ addSchemaTableResolver types argType db = (Except.ok false, false))
    ∧ (argType ∈ types →
      addSchemaColumnResolver types argType (Except.ok ())
          = (Except.ok true, true)
      ∧ addSchemaColumnResolver types argType (Except.error msg)
          = (Except.ok false, true)
      ∧ addSchemaTableResolver types argType (Except.ok ())
          = (Except.ok true, true)
      ∧ addSchemaTableResolver types argType (Except.error msg)
          = (Except.ok false, true))
    ∧ dropSchemaColumnResolver (Except.ok ()) = (Except.ok true, true)
    ∧ dropSchemaColumnResolver (Except.error msg) = (Except.ok false, true)
    ∧ dropSchemaTableResolver (Except.ok ()) = (Except.ok true, true)
    ∧ dropSchemaTableResolver (Except.error msg) = (Except.ok false, true)
    ∧ (∃ b, (addSchemaColumnResolver types argType db).1 = Except.ok b)
    ∧ (∃ b, (addSchemaTableResolver types argType db).1 = Except.ok b)
    ∧ (∃ b, (dropSchemaColumnResolver db).1 = Except.ok b)
    ∧ (∃ b, (dropSchemaTableResolver db).1 = Except.ok b)
    ∧ ((DB2Graphql.new "" none).withBuilder).resolver.overrides.lookup
        ("Query", "addSchemaColumn") = some "addSchemaColumnResolver"
    ∧ ((DB2Graphql.new "" none).withBuilder).resolver.overrides.lookup
        ("Query", "dropSchemaColumn") = some "dropSchemaColumnResolver"
    ∧ ((DB2Graphql.new "" none).withBuilder).resolver.overrides.lookup
        ("Query", "addSchemaTable") = some "addSchemaTableResolver"
    ∧ ((DB2Graphql.new "" none).withBuilder).resolver.overrides.lookup
        ("Query", "dropSchemaTable") = some "dropSchemaTableResolver" := by
  refine ⟨?_, ?_, rfl, rfl, rfl, rfl, ?_, ?_, ?_, ?_,
    by decide, by decide, by decide, by decide⟩
  · intro h
    constructor <;> simp [addSchemaColumnResolver, addSchemaTableResolver, h]
  · intro h
    refine ⟨?_, ?_, ?_, ?_⟩ <;>
      simp [addSchemaColumnResolver, addSchemaTableResolver, h]
  · unfold addSchemaColumnResolver
    split
    · exact ⟨false, rfl⟩
    · cases db
      · exact ⟨false, rfl⟩
      · exact ⟨true, rfl⟩
  · unfold addSchemaTableResolver
    split
    · exact ⟨false, rfl⟩
    · cases db
      · exact ⟨false, rfl⟩
      · exact ⟨true, rfl⟩
  · cases db
    · exact ⟨false, rfl⟩
    · exact ⟨true, rfl⟩
  · cases db
    · exact ⟨false, rfl⟩
    · exact ⟨true, rfl⟩

/-- Witness for C7: an unavailable type short-circuits without touching the
driver; a driver error on an available type becomes `false`. -/
theorem c7_builder_resolvers_convert_errors_witness :
    ("uuid" : String) ∉ ["string", "integer", "boolean"]
    ∧ addSchemaColumnResolver ["string", "integer", "boolean"] "uuid"
        (Except.error "boom") = (Except.ok false, false)
    ∧ ("string" : String) ∈ ["string", "integer", "boolean"]
    ∧ addSchemaTableResolver ["string", "integer", "boolean"] "string"
        (Except.error "boom") = (Except.ok false, true)
    ∧ dropSchemaTableResolver (Except.error "boom") = (Except.ok false, true) :=
  ⟨by decide,
   ((c7_builder_resolvers_convert_errors ["string", "integer", "boolean"]
      "uuid" "boom" (Except.error "boom")).1 (by decide)).1,
   by decide,
   ((c7_builder_resolvers_convert_errors ["string", "integer", "boolean"]
      "string" "boom" (Except.error "boom")).2.1 (by decide)).2.2.2,
   (c7_builder_resolvers_convert_errors ["string", "integer", "boolean"]
      "string" "boom" (Except.error "boom")).2.2.2.2.2.1⟩

/-- Claim C8: for a path whose dot-split is exactly the two non-empty
segments `t` and `fld`, `addField` succeeds and is the same operation as
`add t fld`: the compiler registry gains the field via `addType`, the
resolver map gains the `(t, fld)` entry, and the (updated) facade is
returned for chaining. -/
theorem c8_addField_two_segments_equals_add (f : Facade) (path returns : String)
    (cb : Callback) (params : List (String × String)) (t fld : String)
    (h : pathSegments path = [t, fld]) :
    f.addField path returns cb params = (f.add t fld returns cb params, none)
    ∧ (f.add t fld returns cb params).compiler
        = f.compiler.addType t fld returns params
    ∧ (f.add t fld returns cb params).resolver = f.resolver.add t fld cb := by
  refine ⟨?_, rfl, rfl⟩
  simp [Facade.addField, h]

/-- Witness for C8: the path `Users.fullname`. -/
theorem c8_addField_two_segments_equals_add_witness :
    pathSegments "Users.fullname" = ["Users", "fullname"]
    ∧ (DB2Graphql.new "" none).addField "Users.fullname" "String" "cb" []
      = ((DB2Graphql.new "" none).add "Users" "fullname" "String" "cb" [],
         none) :=
  ⟨by decide,
   (c8_addField_two_segments_equals_add (DB2Graphql.new "" none)
     "Users.fullname" "String" "cb" [] "Users" "fullname" (by decide)).1⟩

/-- Claim C9: a path with more than two non-empty segments raises no error:
`addField` silently discards the leading segments and registers the last
segment as the field on the type named by the second-to-last segment, and
`addInput` behaves the same way. -/
theorem c9_extra_segments_silently_discarded (f : Facade)
    (path returns subType : String) (cb : Callback)
    (params : List (String × String)) (l : List String) (t fld : String)
    (h : pathSegments path = l ++ [t, fld]) (_hl : l ≠ []) :
    f.addField path returns cb params = (f.add t fld returns cb params, none)
    ∧ f.addInput path subType
        = ({ f with compiler := f.compiler.addInput t fld subType }, none) := by
  have hlen : ¬ (pathSegments path).length < 2 := by
    rw [h]; simp
  have hrev : (pathSegments path).reverse = fld :: t :: l.reverse := by
    rw [h]; simp
  constructor
  · simp [Facade.addField, hlen, hrev]
  · simp [Facade.addInput, hlen, hrev]

/-- Witness for C9: the path `A.B.C` registers field `C` on type `B`. -/
theorem c9_extra_segments_silently_discarded_witness :
    pathSegments "A.B.C" = ["A"] ++ ["B", "C"]
    ∧ (["A"] : List String) ≠ []
    ∧ (DB2Graphql.new "" none).addField "A.B.C" "String" "cb" []
      = ((DB2Graphql.new "" none).add "B" "C" "String" "cb" [], none) :=
  ⟨by decide, by decide,
   (c9_extra_segments_silently_discarded (DB2Graphql.new "" none) "A.B.C"
     "String" "Int" "cb" [] ["A"] "B" "C" (by decide) (by decide)).1⟩

/-- Claim C10: `onBefore` with the rejected argument omitted or falsy
replaces only the validator slot; the previously configured rejected
callback is left unchanged. -/
theorem c10_onBefore_omitted_rejected_preserved (f : Facade) (v : Callback) :
    (f.onBefore v none).resolver.beforeHook.validator = some v
    ∧ (f.onBefore v none).resolver.beforeHook.rejected
        = f.resolver.beforeHook.rejected :=
  ⟨rfl, rfl⟩

end DB2G
